import Mathlib

/-!
# Verification of the DG-Lab coyote plugin session/control engine

Shallow embedding of the pure decision logic of `src/plugin.py`
(`CoyoteConnectionManager` and the pulse codec) in Lean 4.

Modelling conventions:
* Python `int` is `Int` (arbitrary precision, like Python's).
* Python strings are Lean `String`s; the handful of `str` methods the code
  uses (`split`, `strip`, `startswith`, `upper`, `lower`) are re-implemented
  over `List Char` with Python's semantics (case mapping is modelled for
  ASCII letters, whitespace for the ASCII whitespace characters; the inputs
  the plugin manipulates are ASCII).
* A Python value whose only relevant property is whether `int(v)` succeeds
  (and with which result) is modelled as `Option Int`.
* Exceptions are modelled by `Except PyErr`.
* Device/transport calls (`pydglab_ws`) are external; their outcomes enter
  the model as explicit boolean parameters (`ready`, `deviceOk`, `bootOk`),
  and the operation actually submitted to the device is part of the result.
-/

namespace DGLabCoyote

/-- Exception classes raised by the embedded code. -/
inductive PyErr where
  | valueError
  | typeError
  | runtimeError
  | overflowError
deriving DecidableEq

/-! ## Python string primitives (over `List Char`) -/

/-- ASCII whitespace recognised by Python's `str.strip()` (the plugin's
inputs contain no other whitespace). -/
def isPyWs (c : Char) : Bool :=
  c = ' ' || c = '\t' || c = '\n' || c = '\r' || c = '\x0b' || c = '\x0c'

/-- `str.strip()` over a character list. -/
def stripChars (l : List Char) : List Char :=
  ((l.dropWhile isPyWs).reverse.dropWhile isPyWs).reverse

/-- `str.strip()`. -/
def pyStrip (s : String) : String := ⟨stripChars s.data⟩

/-- ASCII lower-casing of one character (`str.lower()` restricted to ASCII). -/
def pyLowerChar (c : Char) : Char :=
  if 'A' ≤ c ∧ c ≤ 'Z' then Char.ofNat (c.toNat + 32) else c

/-- ASCII upper-casing of one character (`str.upper()` restricted to ASCII). -/
def pyUpperChar (c : Char) : Char :=
  if 'a' ≤ c ∧ c ≤ 'z' then Char.ofNat (c.toNat - 32) else c

/-- `str.lower()` (ASCII). -/
def pyLower (s : String) : String := ⟨s.data.map pyLowerChar⟩

/-- `str.upper()` (ASCII). -/
def pyUpper (s : String) : String := ⟨s.data.map pyUpperChar⟩

/-- `s.split(c, 1)`: the part before the first occurrence of `c`, and
`some` remainder when `c` occurs (Python returns a 2-element list then). -/
def splitFirst1 (c : Char) : List Char → List Char × Option (List Char)
  | [] => ([], none)
  | x :: xs =>
    if x = c then ([], some xs)
    else
      let (a, b) := splitFirst1 c xs
      (x :: a, b)

/-- `s.split(c)` with a single-character separator (no maxsplit). -/
def splitAllChar (c : Char) : List Char → List (List Char)
  | [] => [[]]
  | x :: xs =>
    if x = c then [] :: splitAllChar c xs
    else
      match splitAllChar c xs with
      | [] => [[x]]
      | h :: t => (x :: h) :: t

/-- Index of the first occurrence of the (non-empty) separator `sep` as a
contiguous sublist, like `str.find`. -/
def findSub (sep : List Char) : List Char → Option Nat
  | [] => none
  | c :: rest =>
    if sep.isPrefixOf (c :: rest) then some 0
    else (findSub sep rest).map (· + 1)

/-- Fuel-driven worker for `splitOnSub`; `fuel ≥ l.length` makes it agree
with Python's `s.split(sep)` for non-empty `sep`. -/
def splitOnSubF (sep : List Char) : Nat → List Char → List (List Char)
  | 0, l => [l]
  | fuel + 1, l =>
    match findSub sep l with
    | none => [l]
    | some i => l.take i :: splitOnSubF sep fuel (l.drop (i + sep.length))

/-- `s.split(sep)` for a non-empty multi-character separator. -/
def splitOnSub (sep l : List Char) : List (List Char) :=
  splitOnSubF sep (l.length + 1) l

/-- `s.split(sep, 1)` outcome: `none` when `sep` does not occur. -/
def splitFirstSub (sep l : List Char) : Option (List Char × List Char) :=
  match findSub sep l with
  | none => none
  | some i => some (l.take i, l.drop (i + sep.length))

/-- Split at the last occurrence of `c` (how `urlparse` locates the port
separator in a `host:port` netloc). -/
def splitLast1 (c : Char) (l : List Char) : Option (List Char × List Char) :=
  match splitFirst1 c l.reverse with
  | (_, none) => none
  | (a, some b) => some (b.reverse, a.reverse)

/-- Decimal rendering of a natural number (Python's `f"{n}"`), fuel-driven. -/
def natToDecAux : Nat → Nat → List Char → List Char
  | 0, _, acc => acc
  | fuel + 1, n, acc =>
    let acc := Char.ofNat (48 + n % 10) :: acc
    if n < 10 then acc else natToDecAux fuel (n / 10) acc

/-- Decimal rendering of a natural number as a string. -/
def natToDec (n : Nat) : String := ⟨natToDecAux (n + 1) n []⟩

/-! ## `set_strength` value pipeline (src/plugin.py lines 281-303)

`mode_map` sends `set`/`set_to` to `SET_TO`, `increase` to `INCREASE`,
`decrease` to `DECREASE`; the submitted value is produced by the clamping
sequence of lines 292-300. -/

/-- `StrengthOperationType` of `pydglab_ws` (the three ops the plugin uses). -/
inductive StrengthOp where
  | SET_TO
  | INCREASE
  | DECREASE
deriving DecidableEq

/-- Channel enum of `pydglab_ws` as used by the plugin. -/
inductive PChannel where
  | A
  | B
deriving DecidableEq

/-- The `mode_map` dictionary lookup on the lower-cased mode name
(src/plugin.py lines 281-290). -/
def mode_map (k : String) : Option StrengthOp :=
  if k = "set" then some .SET_TO
  else if k = "set_to" then some .SET_TO
  else if k = "increase" then some .INCREASE
  else if k = "decrease" then some .DECREASE
  else none

/-- Channel-name validation after upper-casing (src/plugin.py lines 273-279). -/
def channelOf (s : String) : Option PChannel :=
  if s = "A" then some .A
  else if s = "B" then some .B
  else none

/-- Python's builtin `max` on two ints (larger argument, first on ties). -/
def pyMax (a b : Int) : Int := if a < b then b else a

/-- Python's builtin `min` on two ints (smaller argument, first on ties). -/
def pyMin (a b : Int) : Int := if b < a then b else a

lemma pyMax_eq (a b : Int) : pyMax a b = max a b := by
  unfold pyMax; rw [max_def]; split_ifs <;> omega

lemma pyMin_eq (a b : Int) : pyMin a b = min a b := by
  unfold pyMin; rw [min_def]; split_ifs <;> omega

/-- The value-clamping sequence of `set_strength`
(src/plugin.py lines 292-300):
`max_value = max(0, min(200, int(max_value)))`; in `SET_TO` mode a value
above `max_value` is lowered to it; finally the value is clamped to
`[0, 200]`. -/
def clamp_strength (op : StrengthOp) (value max_value : Int) : Int :=
  let mv := pyMax 0 (pyMin 200 max_value)
  let v1 := if op = .SET_TO ∧ value > mv then mv else value
  let v2 := if v1 < 0 then 0 else v1
  if v2 > 200 then 200 else v2

/-- Outcome of the pure part of `set_strength` after a successful
readiness check: either a validation failure, or the operation that is
submitted to `client.set_strength`. -/
inductive SetStrengthResult where
  | invalidChannel
  | invalidMode
  | submit (ch : PChannel) (op : StrengthOp) (value : Int)
deriving DecidableEq

/-- Pure decision logic of `CoyoteConnectionManager.set_strength`
(src/plugin.py lines 270-303) after the readiness check: channel is
validated first, then mode, then the value pipeline runs. -/
def set_strength_core (channel_name mode_name : String) (value max_value : Int) :
    SetStrengthResult :=
  match channelOf (pyUpper channel_name) with
  | none => .invalidChannel
  | some ch =>
    match mode_map (pyLower mode_name) with
    | none => .invalidMode
    | some op => .submit ch op (clamp_strength op value max_value)

/-- In `SET_TO` mode the clamping pipeline computes
`min 200 (max 0 (min value (max 0 (min 200 max_value))))`. -/
lemma clamp_strength_set_to (v mx : Int) :
    clamp_strength .SET_TO v mx
      = min 200 (max 0 (min v (max 0 (min 200 mx)))) := by
  unfold clamp_strength
  simp only [pyMax_eq, pyMin_eq, eq_self_iff_true, true_and, min_def, max_def]
  split_ifs <;> omega

/-- In any mode other than `SET_TO` the pipeline ignores `max_value` and
clamps the value to `[0,200]` only. -/
lemma clamp_strength_not_set (op : StrengthOp) (v mx : Int) (h : op ≠ .SET_TO) :
    clamp_strength op v mx = min 200 (max 0 v) := by
  unfold clamp_strength
  simp only [pyMax_eq, pyMin_eq, h, false_and, if_false, min_def, max_def]
  split_ifs <;> omega

end DGLabCoyote

namespace DGLabCoyote

/-- C1: For every call to `set_strength`: `max_value` is first clamped into
`[0,200]`; in `SET_TO` mode a value above the (clamped) `max_value` is
reduced to it; independently of mode the final submitted value lies in
`[0,200]`.  In particular `set` with `value = 250, max_value = 200` submits
`200`, `value = -5` submits `0` in every mode, and `max_value = 999`
behaves exactly like `max_value = 200`. -/
theorem set_strength_clamping_spec :
    (∀ (op : StrengthOp) (v mx : Int),
      0 ≤ clamp_strength op v mx ∧ clamp_strength op v mx ≤ 200) ∧
    (∀ (op : StrengthOp) (v mx : Int),
      clamp_strength op v mx = clamp_strength op v (max 0 (min 200 mx))) ∧
    (∀ v mx : Int,
      clamp_strength .SET_TO v mx
        = min 200 (max 0 (min v (max 0 (min 200 mx))))) ∧
    clamp_strength .SET_TO 250 200 = 200 ∧
    (∀ (op : StrengthOp) (mx : Int), clamp_strength op (-5) mx = 0) ∧
    (∀ (op : StrengthOp) (v : Int),
      clamp_strength op v 999 = clamp_strength op v 200) := by
  have hidem : ∀ mx : Int,
      max 0 (min 200 (max 0 (min 200 mx))) = max 0 (min 200 mx) := by
    intro mx
    simp only [min_def, max_def]
    split_ifs <;> omega
  refine ⟨?_, ?_, ?_, ?_, ?_, ?_⟩
  · intro op v mx
    by_cases h : op = .SET_TO
    · subst h
      rw [clamp_strength_set_to]
      simp only [min_def, max_def]
      split_ifs <;> omega
    · rw [clamp_strength_not_set op v mx h]
      simp only [min_def, max_def]
      split_ifs <;> omega
  · intro op v mx
    by_cases h : op = .SET_TO
    · subst h
      rw [clamp_strength_set_to, clamp_strength_set_to, hidem]
    · rw [clamp_strength_not_set op v mx h,
        clamp_strength_not_set op v _ h]
  · intro v mx
    exact clamp_strength_set_to v mx
  · decide
  · intro op mx
    by_cases h : op = .SET_TO
    · subst h
      rw [clamp_strength_set_to]
      simp only [min_def, max_def]
      split_ifs <;> omega
    · rw [clamp_strength_not_set op (-5) mx h]
      simp only [min_def, max_def]
      split_ifs <;> omega
  · intro op v
    by_cases h : op = .SET_TO
    · subst h
      rw [clamp_strength_set_to, clamp_strength_set_to]
      norm_num
    · rw [clamp_strength_not_set op v 999 h,
        clamp_strength_not_set op v 200 h]

/-- C10: In `INCREASE` and `DECREASE` modes the configured `max_value`
ceiling is never applied: the submitted value is the input clamped only to
the absolute range `[0,200]`, whatever `max_value` is; e.g. `increase`
with value `200` submits `200` even when `max_value` is `50`. -/
theorem increase_decrease_ignore_max_value :
    (∀ v mx : Int, clamp_strength .INCREASE v mx = min 200 (max 0 v)) ∧
    (∀ v mx : Int, clamp_strength .DECREASE v mx = min 200 (max 0 v)) ∧
    clamp_strength .INCREASE 200 50 = 200 := by
  refine ⟨?_, ?_, by decide⟩
  · intro v mx
    exact clamp_strength_not_set .INCREASE v mx (by simp)
  · intro v mx
    exact clamp_strength_not_set .DECREASE v mx (by simp)

/-- C9 (counterexample): the claim "set_strength accepts exactly the mode
names set, increase and decrease; every other mode name, for every channel
and value, yields an invalid-mode failure without submitting" is false on
the code: the `mode_map` dictionary also contains the key `set_to`, so mode
name `"set_to"` (outside {set, increase, decrease}) is accepted and an
operation is submitted; moreover with an invalid channel the failure
reported is the invalid-channel one, not invalid-mode. -/
theorem set_strength_invalid_mode_counterexample :
    set_strength_core "A" "set_to" 10 200
      = SetStrengthResult.submit PChannel.A StrengthOp.SET_TO 10 ∧
    set_strength_core "X" "bogus" 10 200
      = SetStrengthResult.invalidChannel := by
  constructor <;> rfl

/-- C9 (amended): `set_strength` accepts exactly the mode names whose
lower-casing is in {set, set_to, increase, decrease}; for every valid
channel (A or B after upper-casing) and every value, a mode name outside
that set makes `set_strength` return the invalid-mode failure, submitting
no protocol operation (with an invalid channel the invalid-channel failure
is reported first instead). -/
theorem set_strength_invalid_mode_amended (channel_name mode_name : String)
    (v mx : Int)
    (hch : pyUpper channel_name = "A" ∨ pyUpper channel_name = "B")
    (hm : pyLower mode_name ∉
      (["set", "set_to", "increase", "decrease"] : List String)) :
    set_strength_core channel_name mode_name v mx
      = SetStrengthResult.invalidMode := by
  have h1 : pyLower mode_name ≠ "set" := fun h => hm (by simp [h])
  have h2 : pyLower mode_name ≠ "set_to" := fun h => hm (by simp [h])
  have h3 : pyLower mode_name ≠ "increase" := fun h => hm (by simp [h])
  have h4 : pyLower mode_name ≠ "decrease" := fun h => hm (by simp [h])
  have hm' : mode_map (pyLower mode_name) = none := by
    unfold mode_map
    rw [if_neg h1, if_neg h2, if_neg h3, if_neg h4]
  rcases hch with h | h <;>
    (unfold set_strength_core; rw [h]; simp [channelOf, hm'])

/-- C9 (witness): channel `a` (upper-cased to A) with unknown mode
`boost` is rejected as an invalid mode. -/
theorem set_strength_invalid_mode_amended_witness :
    set_strength_core "a" "boost" 25 100 = SetStrengthResult.invalidMode :=
  set_strength_invalid_mode_amended "a" "boost" 25 100
    (Or.inl (by decide)) (by decide)

end DGLabCoyote

namespace DGLabCoyote

/-! ## `add_pulses` validation (src/plugin.py lines 314-363)

A caller-supplied pulse is a pair of lists of Python values (produced by
`json.loads` in `CoyoteAddWaveformAction`, which passes the `frequency`
and `strength` lists through unvalidated).  Validation uses each value
only through `int(v)`, which either returns an integer or raises:
`ValueError` (e.g. `int("abc")`, `int(float("nan"))`) — the only
exception the `except ValueError` at line 349 catches — or `TypeError`
(e.g. `int(None)` from JSON `null`, `int([...])`) or `OverflowError`
(`int(float("inf"))` from JSON `Infinity`), which that handler does not
catch, so they propagate out of `add_pulses` uncaught.  A value is
therefore modelled by the outcome of `int(v)`. -/

/-- A caller-supplied value, classified by the outcome of `int(v)`. -/
inductive RawVal where
  | toInt (n : Int)
  | valueErr
  | typeErr
  | overflowErr
deriving DecidableEq

/-- `int(v)` succeeds on this value. -/
def RawVal.isIntV : RawVal → Bool
  | .toInt _ => true
  | _ => false

/-- `int(v)` succeeds, or fails with the caught `ValueError` — not with
the uncaught `TypeError`/`OverflowError`. -/
def RawVal.isCleanV : RawVal → Bool
  | .toInt _ => true
  | .valueErr => true
  | _ => false

/-- A caller-supplied pulse: `(freqs, strengths)`. -/
abbrev RawPulse := List RawVal × List RawVal

/-- Which validation error message a pulse produced (wrong arity vs a
value `int` cannot convert). -/
inductive PulseErrKind where
  | badArity
  | badInt
deriving DecidableEq

/-- `tuple(int(v) for v in l)`: the integers, or the exception raised by
the first value whose conversion fails. -/
def convAll : List RawVal → Except PyErr (List Int)
  | [] => .ok []
  | .toInt v :: rest => (convAll rest).map (fun t => v :: t)
  | .valueErr :: _ => .error .valueError
  | .typeErr :: _ => .error .typeError
  | .overflowErr :: _ => .error .overflowError

/-- Outcome of the validation loop region of `add_pulses`: the fully
converted batch, the caught failure returned with its 1-based index, or
an exception that propagates uncaught. -/
inductive ValidateResult where
  | ok (ops : List (List Int × List Int))
  | indexedFailure (idx : Nat) (kind : PulseErrKind)
  | raised (e : PyErr)
deriving DecidableEq

/-- The validation loop of `add_pulses` (src/plugin.py lines 342-351),
carrying the 1-based index of `enumerate(pulses, start=1)`: per pulse,
the arity check, then both tuple conversions inside
`try: ... except ValueError:` — only a `ValueError` becomes the indexed
failure return; a `TypeError` or `OverflowError` propagates. -/
def validate_pulses : Nat → List RawPulse → ValidateResult
  | _, [] => .ok []
  | idx, (f, st) :: rest =>
    if f.length ≠ 4 ∨ st.length ≠ 4 then .indexedFailure idx .badArity
    else
      match convAll f with
      | .error .valueError => .indexedFailure idx .badInt
      | .error e => .raised e
      | .ok ft =>
        match convAll st with
        | .error .valueError => .indexedFailure idx .badInt
        | .error e => .raised e
        | .ok stt =>
          match validate_pulses (idx + 1) rest with
          | .ok t => .ok ((ft, stt) :: t)
          | r => r

/-- Result of `add_pulses` after a successful readiness check. -/
inductive AddPulsesResult where
  | invalidChannel
  | invalidPulse (idx : Nat) (kind : PulseErrKind)
  | raised (e : PyErr)
  | submit (ch : PChannel) (ops : List (List Int × List Int))
deriving DecidableEq

/-- Decision logic of `CoyoteConnectionManager.add_pulses` after a
successful readiness check: channel validation, then the batch
validation loop; only a fully validated batch reaches the single
`client.add_pulses` call, a caught failure returns the indexed message,
and an uncaught conversion exception propagates — in every non-`submit`
outcome nothing is submitted to the device. -/
def add_pulses_core (channel_name : String) (pulses : List RawPulse) :
    AddPulsesResult :=
  match channelOf (pyUpper channel_name) with
  | none => .invalidChannel
  | some ch =>
    match validate_pulses 1 pulses with
    | .indexedFailure i k => .invalidPulse i k
    | .raised e => .raised e
    | .ok ops => .submit ch ops

/-- Spec-side well-formedness of one pulse: exactly 4 frequencies and 4
strengths, each convertible to an integer. -/
def pulseOkB (p : RawPulse) : Bool :=
  p.1.length = 4 && p.2.length = 4 &&
    p.1.all RawVal.isIntV && p.2.all RawVal.isIntV

/-- All conversion failures of this pulse (if any) are `ValueError`s. -/
def pulseCleanB (p : RawPulse) : Bool :=
  p.1.all RawVal.isCleanV && p.2.all RawVal.isCleanV

lemma convAll_ok_of_all (l : List RawVal)
    (h : l.all RawVal.isIntV = true) : ∃ t, convAll l = .ok t := by
  induction l with
  | nil => exact ⟨[], rfl⟩
  | cons hd tl ih =>
    simp only [List.all_cons, Bool.and_eq_true] at h
    cases hd with
    | toInt v =>
      obtain ⟨t, ht⟩ := ih h.2
      exact ⟨v :: t, by rw [show convAll (.toInt v :: tl)
        = (convAll tl).map (fun t => v :: t) from rfl, ht]; rfl⟩
    | valueErr => exact absurd h.1 (by decide)
    | typeErr => exact absurd h.1 (by decide)
    | overflowErr => exact absurd h.1 (by decide)

lemma convAll_valueError (l : List RawVal)
    (hclean : l.all RawVal.isCleanV = true)
    (h : l.all RawVal.isIntV = false) :
    convAll l = .error .valueError := by
  induction l with
  | nil => simp at h
  | cons hd tl ih =>
    cases hd with
    | toInt v =>
      simp only [List.all_cons, Bool.and_eq_true] at hclean
      have h' : tl.all RawVal.isIntV = false := by
        simpa [RawVal.isIntV] using h
      rw [show convAll (.toInt v :: tl)
        = (convAll tl).map (fun t => v :: t) from rfl, ih hclean.2 h']
      rfl
    | valueErr => rfl
    | typeErr => simp [RawVal.isCleanV] at hclean
    | overflowErr => simp [RawVal.isCleanV] at hclean

lemma validate_pulses_cons (idx : Nat) (f st : List RawVal)
    (rest : List RawPulse) :
    validate_pulses idx ((f, st) :: rest)
      = if f.length ≠ 4 ∨ st.length ≠ 4 then .indexedFailure idx .badArity
        else
          match convAll f with
          | .error .valueError => .indexedFailure idx .badInt
          | .error e => .raised e
          | .ok ft =>
            match convAll st with
            | .error .valueError => .indexedFailure idx .badInt
            | .error e => .raised e
            | .ok stt =>
              match validate_pulses (idx + 1) rest with
              | .ok t => .ok ((ft, stt) :: t)
              | r => r := rfl

lemma validate_pulses_first_bad (n : Nat) (ps : List RawPulse)
    (hclean : ps.all pulseCleanB = true)
    (h : ps.any (fun p => !pulseOkB p) = true) :
    ∃ k, validate_pulses n ps
      = .indexedFailure (n + ps.findIdx (fun p => !pulseOkB p)) k := by
  induction ps generalizing n with
  | nil => simp at h
  | cons p rest ih =>
    obtain ⟨f, st⟩ := p
    simp only [List.all_cons, Bool.and_eq_true] at hclean
    obtain ⟨hcp, hcr⟩ := hclean
    by_cases hp : pulseOkB (f, st) = true
    · have hpp := hp
      unfold pulseOkB at hpp
      simp only [Bool.and_eq_true, decide_eq_true_eq] at hpp
      obtain ⟨⟨⟨hl1, hl2⟩, ha1⟩, ha2⟩ := hpp
      obtain ⟨ft, hft⟩ := convAll_ok_of_all f ha1
      obtain ⟨stt, hstt⟩ := convAll_ok_of_all st ha2
      have hrest : rest.any (fun p => !pulseOkB p) = true := by
        simp only [List.any_cons, hp, Bool.not_true, Bool.false_or] at h
        exact h
      obtain ⟨k, hk⟩ := ih (n + 1) hcr hrest
      refine ⟨k, ?_⟩
      rw [List.findIdx_cons]
      simp only [hp, Bool.not_true, cond_false]
      rw [validate_pulses_cons, if_neg (by simp [hl1, hl2]), hft, hstt,
        hk]
      show ValidateResult.indexedFailure (n + 1 + _) k = _
      rw [Nat.add_assoc, Nat.add_comm 1]
    · have hp' : pulseOkB (f, st) = false := Bool.eq_false_iff.mpr hp
      rw [List.findIdx_cons]
      simp only [hp', Bool.not_false, cond_true, Nat.add_zero]
      rw [validate_pulses_cons]
      by_cases hl : f.length = 4 ∧ st.length = 4
      · rw [if_neg (by simp [hl.1, hl.2])]
        simp only [pulseCleanB, Bool.and_eq_true] at hcp
        by_cases haf : f.all RawVal.isIntV = true
        · have hsf : st.all RawVal.isIntV = false := by
            cases hsf' : st.all RawVal.isIntV
            · rfl
            · exfalso
              apply hp
              unfold pulseOkB
              simp [hl.1, hl.2, haf, hsf']
          obtain ⟨ft, hft⟩ := convAll_ok_of_all f haf
          rw [hft, convAll_valueError st hcp.2 hsf]
          exact ⟨.badInt, rfl⟩
        · have haf' : f.all RawVal.isIntV = false := Bool.eq_false_iff.mpr haf
          rw [convAll_valueError f hcp.1 haf']
          exact ⟨.badInt, rfl⟩
      · rw [if_pos (by tauto)]
        exact ⟨.badArity, rfl⟩

/-- On a batch all of whose conversion failures are `ValueError`s (the
only exception the code catches — so no JSON `null`s, nested lists or
infinities among the values), `add_pulses` is all-or-nothing as
documented: a failure is returned with the 1-based index of the first
offending pulse and nothing is submitted.  This restricted domain is
exactly where the code realises the documented behaviour; see the C3
theorem below for the inputs where it instead raises. -/
lemma add_pulses_all_or_nothing_clean (channel_name : String)
    (pulses : List RawPulse)
    (hch : pyUpper channel_name = "A" ∨ pyUpper channel_name = "B")
    (hclean : pulses.all pulseCleanB = true)
    (hbad : pulses.any (fun p => !pulseOkB p) = true) :
    (∃ k, add_pulses_core channel_name pulses
        = AddPulsesResult.invalidPulse
            (pulses.findIdx (fun p => !pulseOkB p) + 1) k) ∧
    ∀ ch ops,
      add_pulses_core channel_name pulses ≠ AddPulsesResult.submit ch ops := by
  obtain ⟨k, hk⟩ := validate_pulses_first_bad 1 pulses hclean hbad
  have h1 : (1 : Nat) + pulses.findIdx (fun p => !pulseOkB p)
      = pulses.findIdx (fun p => !pulseOkB p) + 1 := Nat.add_comm 1 _
  rw [h1] at hk
  have hcore : add_pulses_core channel_name pulses
      = AddPulsesResult.invalidPulse
          (pulses.findIdx (fun p => !pulseOkB p) + 1) k := by
    unfold add_pulses_core
    rcases hch with h | h <;> rw [h] <;> simp [channelOf, hk]
  refine ⟨⟨k, hcore⟩, ?_⟩
  intro ch ops hsub
  rw [hcore] at hsub
  exact absurd hsub (by simp)

/-- The claim's 3-pulse batch: the 2nd pulse has only 3 frequency
values. -/
def c3Batch : List RawPulse :=
  [([.toInt 10, .toInt 20, .toInt 30, .toInt 40],
    [.toInt 1, .toInt 2, .toInt 3, .toInt 4]),
   ([.toInt 10, .toInt 20, .toInt 30],
    [.toInt 1, .toInt 2, .toInt 3, .toInt 4]),
   ([.toInt 10, .toInt 20, .toInt 30, .toInt 40],
    [.toInt 1, .toInt 2, .toInt 3, .toInt 4])]

/-- A single-pulse batch whose first frequency is JSON `null`:
`int(None)` raises `TypeError`. -/
def nullFreqBatch : List RawPulse :=
  [([.typeErr, .toInt 2, .toInt 3, .toInt 4],
    [.toInt 1, .toInt 2, .toInt 3, .toInt 4])]

/-- A 2-pulse batch whose second pulse carries JSON `Infinity`:
`int(float("inf"))` raises `OverflowError`. -/
def infFreqBatch : List RawPulse :=
  [([.toInt 10, .toInt 20, .toInt 30, .toInt 40],
    [.toInt 1, .toInt 2, .toInt 3, .toInt 4]),
   ([.overflowErr, .toInt 2, .toInt 3, .toInt 4],
    [.toInt 1, .toInt 2, .toInt 3, .toInt 4])]

/-- C3 (code bug): the claim says that for *every* batch, a pulse
without 4+4 integer-convertible values makes `add_pulses` *return* a
failure message with the first offending 1-based index, submitting
nothing.  The code's `except ValueError` (line 349) misses the other
exceptions `int(v)` can raise, so on a pulse containing JSON `null`
(`int(None)` raises `TypeError`) or JSON `Infinity` (`int(float("inf"))`
raises `OverflowError`) `add_pulses` raises instead of returning the
indexed failure; the arity half of the claim, such as its own 3-pulse
example, does return the indexed failure `2`.  Nothing is submitted in
any of these outcomes. -/
theorem add_pulses_uncaught_conversion_errors :
    add_pulses_core "A" nullFreqBatch
      = AddPulsesResult.raised PyErr.typeError ∧
    add_pulses_core "A" infFreqBatch
      = AddPulsesResult.raised PyErr.overflowError ∧
    add_pulses_core "A" c3Batch
      = AddPulsesResult.invalidPulse 2 PulseErrKind.badArity := by
  exact ⟨rfl, rfl, rfl⟩

end DGLabCoyote

namespace DGLabCoyote

/-! ## Pulse codec: `parse_dungeonlab_pulse` (src/plugin.py lines 543-594)

The tokens' numeric parts go through Python's builtin `float`, and each
group of four through `max(0, min(100, int(round(v))))`.  A float is
modelled as an exact decimal `man * 10 ^ ex` (plus the special values
`inf`, `-inf`, `nan` that `float` also accepts); the rounding of a decimal
literal to the nearest binary double, overflow of huge exponents to
infinity, underscores in digit strings and non-ASCII digits are not
modelled — none of these occur in the inputs the claims are about. -/

/-- Result of Python's `float(s)`: an exact decimal value or a special
IEEE value. -/
inductive PyFloat where
  | finite (man ex : Int)
  | inf
  | neginf
  | nan
deriving DecidableEq

/-- Value of a string of ASCII digits. -/
def digitsToNat (ds : List Char) : Nat :=
  ds.foldl (fun a c => a * 10 + (c.toNat - 48)) 0

/-- Exponent part of a float literal: optional sign then at least one
digit, consuming the whole remainder. -/
def parseExp (t : List Char) : Option Int :=
  let (esgn, t2) :=
    match t with
    | '+' :: u => ((1 : Int), u)
    | '-' :: u => ((-1 : Int), u)
    | _ => ((1 : Int), t)
  let (ed, rest) := t2.span Char.isDigit
  if ed = [] ∨ rest ≠ [] then none
  else some (esgn * (digitsToNat ed : Int))

/-- Assemble a float literal from integer digits `ip`, fraction digits
`fp` and the remainder `r2` (empty or an exponent part); at least one
digit must be present in the mantissa. -/
def parseDecimalTail (sgn : Int) (ip fp r2 : List Char) : Option PyFloat :=
  if ip = [] ∧ fp = [] then none
  else
    let man : Int :=
      sgn * ((digitsToNat ip : Int) * 10 ^ fp.length + (digitsToNat fp : Int))
    let ex0 : Int := -(fp.length : Int)
    match r2 with
    | [] => some (.finite man ex0)
    | e :: t =>
      if e = 'e' ∨ e = 'E' then
        match parseExp t with
        | none => none
        | some ev => some (.finite man (ex0 + ev))
      else none

/-- Decimal part of `float(s)` after the sign: `digits [. digits]
[e|E [sign] digits]`. -/
def parseDecimal (sgn : Int) (l : List Char) : Option PyFloat :=
  let (ip, r1) := l.span Char.isDigit
  match r1 with
  | '.' :: t =>
    let (fp, r2) := t.span Char.isDigit
    parseDecimalTail sgn ip fp r2
  | _ => parseDecimalTail sgn ip [] r1

/-- Python's builtin `float(s)` on a string: strip whitespace, optional
sign, then `inf`/`infinity`/`nan` (case-insensitive) or a decimal
literal; `none` models the `ValueError` the token loop catches. -/
def pyFloatParse (l : List Char) : Option PyFloat :=
  let l1 := stripChars l
  match l1 with
  | '+' :: t => pyFloatParseUnsigned 1 t
  | '-' :: t => pyFloatParseUnsigned (-1) t
  | _ => pyFloatParseUnsigned 1 l1
where
  /-- The part after the optional sign. -/
  pyFloatParseUnsigned (sgn : Int) (l2 : List Char) : Option PyFloat :=
    let low := l2.map pyLowerChar
    if low = "inf".data ∨ low = "infinity".data then
      some (if sgn = 1 then .inf else .neginf)
    else if low = "nan".data then some .nan
    else parseDecimal sgn l2

/-- `round(v)` for a finite float `man * 10 ^ ex`: round half to even
(Python 3 banker's rounding), exact on decimals. -/
def pyRoundDec (man ex : Int) : Int :=
  if 0 ≤ ex then man * 10 ^ ex.toNat
  else
    let d : Int := 10 ^ (-ex).toNat
    let q := Int.fdiv man d
    let r := man - q * d
    if 2 * r < d then q
    else if d < 2 * r then q + 1
    else if q % 2 = 0 then q else q + 1

/-- `max(0, min(100, int(round(v))))` on one float of a group
(src/plugin.py line 588): `round` raises `ValueError` on `nan` and
`OverflowError` on the infinities, *outside* any try/except. -/
def strengthOfFloat (v : PyFloat) : Except PyErr Int :=
  match v with
  | .nan => .error .valueError
  | .inf => .error .overflowError
  | .neginf => .error .overflowError
  | .finite man ex => .ok (pyMax 0 (pyMin 100 (pyRoundDec man ex)))

/-- The token loop of one section's data part (src/plugin.py lines
565-576): split on commas, drop empty tokens, strip, take the part before
the first `-`, and keep every value `float` can parse. -/
def collectSeg (acc : List PyFloat) (seg : List Char) : List PyFloat :=
  if seg.contains '/' then
    match splitFirst1 '/' seg with
    | (_, some data) =>
      let toks := (splitAllChar ',' data).filter (fun t => t ≠ [])
      toks.foldl
        (fun a t0 =>
          let t := stripChars t0
          if t = [] then a
          else
            match pyFloatParse (splitFirst1 '-' t).1 with
            | some v => a ++ [v]
            | none => a)
        acc
    | (_, none) => acc
  else acc

/-- The segment loop (src/plugin.py lines 561-576). -/
def collectStrengths (segments : List (List Char)) : List PyFloat :=
  segments.foldl collectSeg []

/-- The grouping loop (src/plugin.py lines 583-591): chunks of 4, the
last chunk right-padded with its final value, each chunk rounded and
clamped into a `PulseOperation` with fixed frequency `[80,80,80,80]`.
Errors are the uncaught exceptions of `int(round(v))`. -/
def buildPulses : List PyFloat → Except PyErr (List (List Int × List Int))
  | [] => .ok []
  | a :: b :: c :: d :: rest =>
    match [a, b, c, d].mapM strengthOfFloat with
    | .error e => .error e
    | .ok strengths =>
      match buildPulses rest with
      | .error e => .error e
      | .ok tail => .ok (([80, 80, 80, 80], strengths) :: tail)
  | l =>
    let g := l ++ List.replicate (4 - l.length) (l.getLastD .nan)
    match g.mapM strengthOfFloat with
    | .error e => .error e
    | .ok strengths => .ok [([80, 80, 80, 80], strengths)]

/-- The literal header prefix required by the parser. -/
def headerChars : List Char := "Dungeonlab+pulse".data

/-- The literal section delimiter. -/
def sectionSep : List Char := "+section+".data

/-- `parse_dungeonlab_pulse` (src/plugin.py lines 543-594): header check,
split off everything after the first `:`, split into sections, collect
strength tokens, group into pulse operations, truncate to 80. -/
def parse_dungeonlab_pulse (content : String) :
    Except PyErr (List (List Int × List Int)) :=
  if headerChars.isPrefixOf content.data then
    match splitFirst1 ':' content.data with
    | (_, none) => .ok []
    | (_, some rest) =>
      let segments := splitOnSub sectionSep rest
      let strengths := collectStrengths segments
      if strengths = [] then .ok []
      else
        match buildPulses strengths with
        | .error e => .error e
        | .ok pulses => .ok (pulses.take 80)
  else .ok []

/-- C5: the documented example input yields exactly 2 PulseOperations —
frequency `[80,80,80,80]` with strengths `[10,20,30,40]`, then frequency
`[80,80,80,80]` with strengths `[50,50,50,50]` (the last value repeated to
pad the short chunk) — and every input that does not start with the
required `Dungeonlab+pulse` header yields the empty sequence. -/
theorem parse_dungeonlab_pulse_example (s : String)
    (h : ¬ ("Dungeonlab+pulse".data <+: s.data)) :
    parse_dungeonlab_pulse
        "Dungeonlab+pulse:seg+section+x/10.00-1,20.00-1,30.00-1,40.00-1,50.00-1"
      = .ok [([80, 80, 80, 80], [10, 20, 30, 40]),
             ([80, 80, 80, 80], [50, 50, 50, 50])] ∧
    parse_dungeonlab_pulse s = .ok [] := by
  constructor
  · rfl
  · unfold parse_dungeonlab_pulse
    have hfalse : headerChars.isPrefixOf s.data = false := by
      rw [Bool.eq_false_iff]
      intro hpre
      exact h (List.isPrefixOf_iff_prefix.mp hpre)
    simp [hfalse]

/-- C5 (witness): the example input evaluates as claimed, and the
header-less input `"hello"` yields the empty sequence. -/
theorem parse_dungeonlab_pulse_example_witness :
    parse_dungeonlab_pulse
        "Dungeonlab+pulse:seg+section+x/10.00-1,20.00-1,30.00-1,40.00-1,50.00-1"
      = .ok [([80, 80, 80, 80], [10, 20, 30, 40]),
             ([80, 80, 80, 80], [50, 50, 50, 50])] ∧
    parse_dungeonlab_pulse "hello" = .ok [] :=
  parse_dungeonlab_pulse_example "hello" (by decide)

/-- C6 (code bug): the claim says `parseExternalFormat` is total — it
never raises, for every input string.  The code is not: on
`"Dungeonlab+pulse:x/nan-1"` the token `nan` is accepted by `float`
(so it is not skipped by the token loop's try/except), and then
`int(round(nan))` at line 588 — outside any try — raises
`ValueError: cannot convert float NaN to integer`, so
`parse_dungeonlab_pulse` propagates an exception instead of returning a
sequence. -/
theorem parse_dungeonlab_pulse_raises_on_nan :
    parse_dungeonlab_pulse "Dungeonlab+pulse:x/nan-1"
      = .error PyErr.valueError := by
  rfl

end DGLabCoyote

namespace DGLabCoyote

/-! ## Session manager state (src/plugin.py lines 52-141, 430-470)

The mutable fields of `CoyoteConnectionManager` plus counters recording
how often the external server bootstrap (`DGLabWSServer(...).__aenter__`)
and server shutdown (`__aexit__`) were invoked; client handles are
numbered by a counter so that "the same client object" is expressible.
Outcomes of external calls enter as booleans: `bootOk` (server bootstrap
does not throw), `ready` (a preceding `ensure_ready_for_control`
succeeded), `deviceOk` (the device call does not throw). -/

/-- Status of a background waveform-loop task handle (`asyncio.Task`):
still running, or already finished. -/
inductive TaskStatus where
  | running
  | done
deriving DecidableEq

/-- The state of one `CoyoteConnectionManager`. -/
structure ManagerState where
  available : Bool
  server : Bool
  client : Option Nat
  server_uri : Option String
  heartbeat : Option ℚ
  monitor : Bool
  last_bound : Bool
  taskA : Option TaskStatus
  taskB : Option TaskStatus
  serverStarts : Nat
  serverStops : Nat
  nextClient : Nat
deriving DecidableEq

/-- `CoyoteConnectionManager._close_unlocked` (src/plugin.py lines
73-90): cancel the monitor task, cancel and clear all waveform tasks,
attempt server shutdown when a server exists (errors swallowed), reset
all session fields. -/
def close_unlocked (s : ManagerState) : ManagerState :=
  { s with
    monitor := false,
    taskA := none,
    taskB := none,
    serverStops := s.serverStops + (if s.server then 1 else 0),
    server := false,
    client := none,
    server_uri := none,
    heartbeat := none,
    last_bound := false }

/-- Models `urllib.parse.urlparse` as used at src/plugin.py lines
105-114, for URIs of the shape `scheme://host:port`: scheme and hostname
are lower-cased, the port must be a number in `0..65535`; a missing or
invalid host/port yields `none` (the code then raises `ValueError`). -/
def parse_ws_uri (uri : String) : Option (String × String × Nat) :=
  match splitFirstSub "://".data uri.data with
  | none => none
  | some (sch, rest) =>
    let netloc := (splitFirst1 '/' rest).1
    match splitLast1 ':' netloc with
    | none => none
    | some (h, p) =>
      if h = [] ∨ p = [] ∨ p.all Char.isDigit = false then none
      else
        let port := digitsToNat p
        if 65535 < port then none
        else
          let scheme := if sch = [] then "ws".data else sch.map pyLowerChar
          some (⟨scheme⟩, ⟨h.map pyLowerChar⟩, port)

/-- The session-creation branch of `get_or_create_client` (src/plugin.py
lines 121-141): tear down any existing session, bootstrap a new server
(failure raises `RuntimeError`), register one fresh local client, store
the session as active, spawn the monitor task. -/
def start_new_session (s : ManagerState) (base : String) (hb : ℚ)
    (bootOk : Bool) : Except PyErr (Nat × ManagerState) :=
  let s1 := close_unlocked s
  if bootOk = false then .error .runtimeError
  else
    let c := s1.nextClient
    .ok (c,
      { s1 with
        server := true,
        client := some c,
        server_uri := some base,
        heartbeat := some hb,
        monitor := true,
        serverStarts := s1.serverStarts + 1,
        nextClient := c + 1 })

/-- The locked body of `get_or_create_client` (src/plugin.py lines
117-141) given the canonical `base` URI: reuse the existing client when
the identity matches, otherwise tear down and start a new session. -/
def get_or_create_with_base (s : ManagerState) (base : String) (hb : ℚ)
    (bootOk : Bool) : Except PyErr (Nat × ManagerState) :=
  match s.client with
  | some c =>
    if s.server_uri = some base then .ok (c, s)
    else start_new_session s base hb bootOk
  | none => start_new_session s base hb bootOk

/-- `CoyoteConnectionManager.get_or_create_client` (src/plugin.py lines
92-141): dependency check, URI parsing and validation, then under the
lock either reuse the existing client (same canonical
`scheme://host:port`) or tear down and start a new session. -/
def get_or_create_client (s : ManagerState) (uri : String)
    (heartbeat_interval : Option ℚ) (bootOk : Bool) :
    Except PyErr (Nat × ManagerState) :=
  if s.available = false then .error .runtimeError
  else
    match parse_ws_uri uri with
    | none => .error .valueError
    | some (scheme, host, port) =>
      if scheme ≠ "ws" ∧ scheme ≠ "wss" then .error .valueError
      else
        get_or_create_with_base s
          (scheme ++ "://" ++ host ++ ":" ++ natToDec port)
          (heartbeat_interval.getD 20) bootOk

/-- The waveform-loop task stored for a channel
(`self._waveform_tasks.get(channel_name)`). -/
def taskOf (s : ManagerState) : PChannel → Option TaskStatus
  | .A => s.taskA
  | .B => s.taskB

/-- Store/remove the waveform-loop task of a channel. -/
def setTask (s : ManagerState) : PChannel → Option TaskStatus → ManagerState
  | .A, t => { s with taskA := t }
  | .B, t => { s with taskB := t }

/-- `CoyoteConnectionManager.clear_pulses` (src/plugin.py lines 430-470):
readiness check, channel validation, device-side queue clear
(`client.clear_pulses(channel)` — the second component reports the
channel it was issued on), then cancel and remove the channel's
waveform-loop task when one is present and not yet done. -/
def clear_pulses_core (s : ManagerState) (ready deviceOk : Bool)
    (channel_name : String) : Bool × Option PChannel × ManagerState :=
  if ready = false then (false, none, s)
  else
    match channelOf (pyUpper channel_name) with
    | none => (false, none, s)
    | some ch =>
      if deviceOk = false then (false, some ch, s)
      else
        let s' :=
          match taskOf s ch with
          | some .running => setTask s ch none
          | _ => s
        (true, some ch, s')

/-- Modelled from the spec: the session manager's `disconnect(identity,
resetChannels=true)` operation is part of this repository but not present
in src/plugin.py (only the other manager operations are) — per the spec,
under the lock it returns success trivially when no session exists;
otherwise it best-effort resets both channels when asked and then
unconditionally tears the session down. -/
def disconnect (s : ManagerState) (resetChannels : Bool) :
    Bool × ManagerState :=
  if s.client.isNone && !s.server then (true, s)
  else (true, close_unlocked s)

/-- `build_server_uri_from_connection_config` (src/plugin.py lines
493-521): a non-empty explicit URI is returned as-is after stripping;
otherwise host, scheme and port are validated and assembled.
`server_port` is of type `Any`; its only used property is whether
`int(server_port)` succeeds, so it is modelled as `Option Int`. -/
def build_server_uri_from_connection_config
    (explicit_server_uri : Option String) (server_scheme : String)
    (local_lan_ip : String) (server_port : Option Int) :
    Except PyErr String :=
  let explicit_uri := pyStrip (explicit_server_uri.getD "")
  if explicit_uri ≠ "" then .ok explicit_uri
  else
    let host := pyStrip local_lan_ip
    if host = "" then .error .valueError
    else
      let scheme :=
        pyLower (pyStrip (if server_scheme = "" then "ws" else server_scheme))
      if scheme ≠ "ws" ∧ scheme ≠ "wss" then .error .valueError
      else
        match server_port with
        | none => .error .valueError
        | some p =>
          if p < 1 ∨ 65535 < p then .error .valueError
          else .ok (scheme ++ "://" ++ host ++ ":" ++ natToDec p.toNat)

end DGLabCoyote

namespace DGLabCoyote

lemma start_new_session_fields (s : ManagerState) (base : String) (hb : ℚ)
    (bootOk : Bool) (c : Nat) (s₁ : ManagerState)
    (h : start_new_session s base hb bootOk = .ok (c, s₁)) :
    s₁.available = s.available ∧ s₁.client = some c ∧
      s₁.server_uri = some base := by
  unfold start_new_session at h
  by_cases hb' : bootOk = false
  · rw [if_pos hb'] at h
    exact absurd h (by simp)
  · rw [if_neg hb'] at h
    simp only [Except.ok.injEq, Prod.mk.injEq] at h
    obtain ⟨hc, hs⟩ := h
    subst hs
    subst hc
    simp [close_unlocked]

lemma with_base_client_some (s : ManagerState) (base : String) (hb : ℚ)
    (bootOk : Bool) (c0 : Nat) (hc : s.client = some c0) :
    get_or_create_with_base s base hb bootOk
      = if s.server_uri = some base then .ok (c0, s)
        else start_new_session s base hb bootOk := by
  unfold get_or_create_with_base
  rw [hc]

lemma with_base_client_none (s : ManagerState) (base : String) (hb : ℚ)
    (bootOk : Bool) (hc : s.client = none) :
    get_or_create_with_base s base hb bootOk
      = start_new_session s base hb bootOk := by
  unfold get_or_create_with_base
  rw [hc]

lemma with_base_fields (s : ManagerState) (base : String) (hb : ℚ)
    (bootOk : Bool) (c : Nat) (s₁ : ManagerState)
    (h : get_or_create_with_base s base hb bootOk = .ok (c, s₁)) :
    s₁.available = s.available ∧ s₁.client = some c ∧
      s₁.server_uri = some base := by
  cases hc : s.client with
  | some c0 =>
    rw [with_base_client_some s base hb bootOk c0 hc] at h
    by_cases huri : s.server_uri = some base
    · rw [if_pos huri] at h
      simp only [Except.ok.injEq, Prod.mk.injEq] at h
      obtain ⟨h1, h2⟩ := h
      subst h2
      exact ⟨rfl, by rw [hc, h1], huri⟩
    · rw [if_neg huri] at h
      exact start_new_session_fields _ _ _ _ _ _ h
  | none =>
    rw [with_base_client_none s base hb bootOk hc] at h
    exact start_new_session_fields _ _ _ _ _ _ h

lemma get_or_create_client_parse_some (s : ManagerState) (uri : String)
    (hb : Option ℚ) (bootOk : Bool) (scheme host : String) (port : Nat)
    (hp : parse_ws_uri uri = some (scheme, host, port)) :
    get_or_create_client s uri hb bootOk
      = if s.available = false then .error .runtimeError
        else if scheme ≠ "ws" ∧ scheme ≠ "wss" then .error .valueError
        else
          get_or_create_with_base s
            (scheme ++ "://" ++ host ++ ":" ++ natToDec port)
            (hb.getD 20) bootOk := by
  unfold get_or_create_client
  rw [hp]

/-- C7: `get_or_create_client` is idempotent per identity: after any
successful call returning client `c` and leaving state `s₁`, a second
call with the same URI returns the very same client `c` and the state
`s₁` completely unchanged — in particular no teardown happens and no
second server is started (`serverStarts`/`serverStops` are part of the
state that is preserved). -/
theorem get_or_create_client_idempotent (s : ManagerState) (uri : String)
    (hb : Option ℚ) (bootOk : Bool) (c : Nat) (s₁ : ManagerState)
    (h : get_or_create_client s uri hb bootOk = .ok (c, s₁)) :
    get_or_create_client s₁ uri hb bootOk = .ok (c, s₁) := by
  cases hp : parse_ws_uri uri with
  | none =>
    unfold get_or_create_client at h
    rw [hp] at h
    by_cases hav : s.available = false
    · rw [if_pos hav] at h
      exact absurd h (by simp)
    · rw [if_neg hav] at h
      exact absurd h (by simp)
  | some t =>
    obtain ⟨scheme, host, port⟩ := t
    rw [get_or_create_client_parse_some s uri hb bootOk scheme host port hp]
      at h
    rw [get_or_create_client_parse_some s₁ uri hb bootOk scheme host port hp]
    by_cases hav : s.available = false
    · rw [if_pos hav] at h
      exact absurd h (by simp)
    · rw [if_neg hav] at h
      by_cases hsch : scheme ≠ "ws" ∧ scheme ≠ "wss"
      · rw [if_pos hsch] at h
        exact absurd h (by simp)
      · rw [if_neg hsch] at h
        obtain ⟨ha, hcl, hu⟩ := with_base_fields _ _ _ _ _ _ h
        have hav1 : ¬ s₁.available = false := by rw [ha]; exact hav
        rw [if_neg hav1, if_neg hsch,
          with_base_client_some s₁ _ _ bootOk c hcl, if_pos hu]

/-- The manager's initial state (`CoyoteConnectionManager.__init__`),
with the dependency available. -/
def initialState : ManagerState :=
  ⟨true, false, none, none, none, false, false, none, none, 0, 0, 0⟩

/-- The state after a first successful `get_or_create_client` on
`ws://127.0.0.1:5678` from `initialState`. -/
def activeState : ManagerState :=
  ⟨true, true, some 0, some "ws://127.0.0.1:5678", some 20, true, false,
    none, none, 1, 0, 1⟩

/-- C7 (witness): from the initial state, a first call creates client 0
and leaves `activeState`; the second call with the same URI returns
client 0 and `activeState` unchanged. -/
theorem get_or_create_client_idempotent_witness :
    get_or_create_client activeState "ws://127.0.0.1:5678" none true
      = .ok (0, activeState) :=
  get_or_create_client_idempotent initialState "ws://127.0.0.1:5678" none
    true 0 activeState (by rfl)

/-- C4: a successful `clear_pulses` on a channel whose waveform-loop task
is running both issues the device-side queue clear on that channel and
cancels and removes the task, so that afterwards no loop task exists for
that channel. -/
theorem clear_pulses_cancels_loop (s : ManagerState) (channel_name : String)
    (ch : PChannel) (hch : channelOf (pyUpper channel_name) = some ch)
    (hrun : taskOf s ch = some .running) :
    clear_pulses_core s true true channel_name
      = (true, some ch, setTask s ch none) ∧
    taskOf (clear_pulses_core s true true channel_name).2.2 ch = none := by
  have hmain : clear_pulses_core s true true channel_name
      = (true, some ch, setTask s ch none) := by
    unfold clear_pulses_core
    simp only [hch, hrun]
    simp
  refine ⟨hmain, ?_⟩
  rw [hmain]
  cases ch <;> simp [taskOf, setTask]

/-- A session state with a running waveform loop on channel A. -/
def loopingState : ManagerState :=
  ⟨true, true, some 0, some "ws://127.0.0.1:5678", some 20, true, false,
    some .running, none, 1, 0, 1⟩

/-- C4 (witness): clearing channel A of a state whose A-loop is running
succeeds, issues the device clear on A, and leaves no task for A. -/
theorem clear_pulses_cancels_loop_witness :
    clear_pulses_core loopingState true true "A"
      = (true, some PChannel.A, setTask loopingState PChannel.A none) ∧
    taskOf (clear_pulses_core loopingState true true "A").2.2 PChannel.A
      = none :=
  clear_pulses_cancels_loop loopingState "A" PChannel.A (by rfl) (by rfl)

/-- C2: `disconnect` when no session exists is an idempotent no-op: it
reports success, leaves the state untouched, and in particular attempts
no server stop (`serverStops` unchanged).
(`disconnect` is not part of src/plugin.py; the definition is modelled
from the spec.) -/
theorem disconnect_noop (s : ManagerState) (resetChannels : Bool)
    (hc : s.client = none) (hs : s.server = false) :
    disconnect s resetChannels = (true, s) ∧
    (disconnect s resetChannels).2.serverStops = s.serverStops := by
  have h : disconnect s resetChannels = (true, s) := by
    unfold disconnect
    rw [if_pos (by rw [hc, hs]; rfl)]
  exact ⟨h, by rw [h]⟩

/-- C2 (witness): disconnecting the never-connected initial state
succeeds without any effect. -/
theorem disconnect_noop_witness :
    disconnect initialState true = (true, initialState) ∧
    (disconnect initialState true).2.serverStops
      = initialState.serverStops :=
  disconnect_noop initialState true (by rfl) (by rfl)

/-- C8 (counterexample): the claim says a non-empty explicit URI whose
scheme is not in {ws, wss} makes the endpoint resolver fail; in fact
`build_server_uri_from_connection_config` returns any non-empty explicit
URI unvalidated — here an `http` URI is returned as-is instead of an
error. -/
theorem build_server_uri_counterexample :
    build_server_uri_from_connection_config (some "http://example.com:1234")
      "ws" "127.0.0.1" (some 5678) = .ok "http://example.com:1234" := by
  rfl

/-- C8 (amended): for every explicit URI that is non-empty after
stripping whitespace, the resolver returns that stripped URI unchanged,
with no scheme/host/port validation; scheme/host/port of an explicit URI
are only validated later, when `get_or_create_client` parses it. -/
theorem build_server_uri_explicit_passthrough (u : Option String)
    (sch ip : String) (p : Option Int)
    (h : pyStrip (u.getD "") ≠ "") :
    build_server_uri_from_connection_config u sch ip p
      = .ok (pyStrip (u.getD "")) := by
  unfold build_server_uri_from_connection_config
  rw [if_pos h]

/-- C8 (witness): a padded explicit URI is passed through stripped, even
with an empty host and an unusable port configured. -/
theorem build_server_uri_explicit_passthrough_witness :
    build_server_uri_from_connection_config
        (some " http://example.com:1234 ") "ws" "" none
      = .ok (pyStrip ((some " http://example.com:1234 ").getD "")) :=
  build_server_uri_explicit_passthrough (some " http://example.com:1234 ")
    "ws" "" none (by decide)

end DGLabCoyote
